import Mathlib

/-!
Verification of the input-normalization and content-classification layer of
the langchain-scrapingbee tools module (src/langchain_scrapingbee/tools.py).

The Python code is shallowly embedded: Python values are modelled by the
inductive type PyVal, Python strings by String / List Char, bytes by
List Nat, and the filesystem and clock effects of the persistence helpers
are made explicit (written files are returned as data, the timestamp is an
injected parameter).  Library routines the code calls (base64.b64decode,
json.loads, ast.literal_eval) are modelled after their CPython semantics,
as documented at each definition.
-/

namespace ScrapingBee

/-- Model of a Python value, as needed by the parameter coercer.  Floats
and complex numbers are carried by their lexeme, since no arithmetic on
them is ever performed; dictionaries keep their key-value pairs in
insertion order, as CPython dicts do. -/
inductive PyVal where
  | pyNone
  | pyBool (b : Bool)
  | pyInt (n : Int)
  | pyFloat (lexeme : String)
  | pyComplex (lexeme : String)
  | pyStr (s : String)
  | pyList (xs : List PyVal)
  | pyTuple (xs : List PyVal)
  | pySet (xs : List PyVal)
  | pyDict (kvs : List (PyVal × PyVal))

/-- Structural equality of Python values, used for dictionary keys.  It
coincides with Python equality on the string keys that every dictionary
reachable from the claims uses; Python's cross-type numeric key equality
(1 == True == 1.0) and set/dict value equality are not modelled, and no
theorem below depends on key equality beyond string keys. -/
def pyValEq : PyVal → PyVal → Bool
  | PyVal.pyNone, PyVal.pyNone => true
  | PyVal.pyBool a, PyVal.pyBool b => a == b
  | PyVal.pyInt a, PyVal.pyInt b => a == b
  | PyVal.pyFloat a, PyVal.pyFloat b => a == b
  | PyVal.pyComplex a, PyVal.pyComplex b => a == b
  | PyVal.pyStr a, PyVal.pyStr b => a == b
  | PyVal.pyList a, PyVal.pyList b => pyValListEq a b
  | PyVal.pyTuple a, PyVal.pyTuple b => pyValListEq a b
  | PyVal.pySet a, PyVal.pySet b => pyValListEq a b
  | PyVal.pyDict a, PyVal.pyDict b => pyValPairsEq a b
  | _, _ => false
where
  pyValListEq : List PyVal → List PyVal → Bool
    | [], [] => true
    | a :: as, b :: bs => pyValEq a b && pyValListEq as bs
    | _, _ => false
  pyValPairsEq : List (PyVal × PyVal) → List (PyVal × PyVal) → Bool
    | [], [] => true
    | (k1, v1) :: as, (k2, v2) :: bs => pyValEq k1 k2 && pyValEq v1 v2 && pyValPairsEq as bs
    | _, _ => false

/-- Whitespace for Python's str.strip and the regex class backslash-s in
Unicode mode: the ASCII whitespace characters plus the common Unicode
space characters. -/
def isPySpace (c : Char) : Bool :=
  c = ' ' || c = '\t' || c = '\n' || c = '\r' || c = '\x0b' || c = '\x0c' ||
  c = '\x1c' || c = '\x1d' || c = '\x1e' || c = '\x1f' || c = '\x85' || c = '\xa0' ||
  c = '\u1680' || ('\u2000' ≤ c && c ≤ '\u200a') || c = '\u2028' || c = '\u2029' ||
  c = '\u202f' || c = '\u205f' || c = '\u3000'

/-- Contiguous-sublist test: Python's `needle in haystack` on sequences. -/
def hasSubList {α : Type} [BEq α] (pat : List α) : List α → Bool
  | [] => pat.isEmpty
  | x :: xs => List.isPrefixOf pat (x :: xs) || hasSubList pat xs

/-- Everything after the first occurrence of `pat`:
Python's `haystack.split(pat, 1)[1]` when `pat in haystack`. -/
def afterSubList {α : Type} [BEq α] (pat : List α) : List α → Option (List α)
  | [] => if pat.isEmpty then Option.some [] else Option.none
  | x :: xs =>
    if List.isPrefixOf pat (x :: xs) then Option.some (List.drop pat.length (x :: xs))
    else afterSubList pat xs

/-- Value of a character in the standard base64 alphabet. -/
def b64CharVal (c : Char) : Option Nat :=
  if 'A' ≤ c && c ≤ 'Z' then Option.some (c.toNat - 65)
  else if 'a' ≤ c && c ≤ 'z' then Option.some (c.toNat - 71)
  else if '0' ≤ c && c ≤ '9' then Option.some (c.toNat + 4)
  else if c = '+' then Option.some 62
  else if c = '/' then Option.some 63
  else Option.none

/-- CPython binascii.a2b_base64 in non-strict mode (the mode used by
base64.b64decode with validate=False, which is what tools.py calls):
characters outside the alphabet are skipped, an equals sign completes the
stream once at least two data characters of the current quad and enough
pads have been seen, and at end of input the quad position must be zero.
State: remaining input, quad position (0-3), pending bits, pad count of the
current run, count of data characters consumed, accumulated output bytes
(reversed). -/
def a2bBase64Aux : List Char → Nat → Nat → Nat → Nat → List Nat → Except String (List Nat)
  | [], quadPos, _, _, count, acc =>
    if quadPos = 0 then Except.ok acc.reverse
    else if quadPos = 1 then
      Except.error ("Invalid base64-encoded string: number of data characters (" ++
        toString count ++ ") cannot be 1 more than a multiple of 4")
    else Except.error "Incorrect padding"
  | c :: rest, quadPos, leftchar, pads, count, acc =>
    if c = '=' then
      if 2 ≤ quadPos then
        if 4 ≤ quadPos + (pads + 1) then Except.ok acc.reverse
        else a2bBase64Aux rest quadPos leftchar (pads + 1) count acc
      else a2bBase64Aux rest quadPos leftchar pads count acc
    else
      match b64CharVal c with
      | Option.none => a2bBase64Aux rest quadPos leftchar pads count acc
      | Option.some v =>
        match quadPos with
        | 0 => a2bBase64Aux rest 1 v 0 (count + 1) acc
        | 1 => a2bBase64Aux rest 2 (v % 16) 0 (count + 1) ((leftchar * 4 + v / 16) :: acc)
        | 2 => a2bBase64Aux rest 3 (v % 4) 0 (count + 1) ((leftchar * 16 + v / 4) :: acc)
        | _ => a2bBase64Aux rest 0 0 0 (count + 1) ((leftchar * 64 + v) :: acc)

/-- Model of Python base64.b64decode applied to a str argument: the string
is first encoded as ASCII (a non-ASCII character raises ValueError), then
decoded by binascii.a2b_base64 in non-strict mode. -/
def pyB64Decode (chars : List Char) : Except String (List Nat) :=
  if chars.all (fun c => c.toNat < 128) then a2bBase64Aux chars 0 0 0 0 []
  else Except.error "string argument should contain only ASCII characters"

def exceptOk {α β : Type} : Except α β → Bool
  | Except.ok _ => true
  | Except.error _ => false

/-- Python str.startswith, over the character lists (structurally
recursive, unlike String.startsWith, so that it computes by reduction). -/
def strStartsWith (s pre : String) : Bool := List.isPrefixOf pre.data s.data

/-- Python str.endswith, over the character lists. -/
def strEndsWith (s suf : String) : Bool := List.isSuffixOf suf.data s.data

/-- The marker split on by both _is_base64_image and _save_base64_image. -/
def base64Marker : List Char := String.data "base64,"

/-- The shared payload-cleaning steps of GoogleSearchTool._is_base64_image
and GoogleSearchTool._save_base64_image: keep only what follows the first
occurrence of the marker base64-comma when the marker is present, delete
all whitespace (re.sub of the class backslash-s-plus with the empty
string), and append equals signs up to the next multiple-of-4 length. -/
def cleanBase64Payload (image_data : String) : List Char :=
  let clean_data :=
    match afterSubList base64Marker image_data.data with
    | Option.some rest => rest
    | Option.none => image_data.data
  let clean_data := clean_data.filter (fun c => ! isPySpace c)
  let missing_padding := clean_data.length % 4
  if missing_padding ≠ 0 then clean_data ++ List.replicate (4 - missing_padding) '='
  else clean_data

/-- GoogleSearchTool._is_base64_image (tools.py lines 468-497): empty/falsy
input is rejected, a data-URI with a base64 marker is accepted outright,
URL-shaped input is rejected, otherwise the cleaned payload is accepted
exactly when it decodes. -/
def is_base64_image (image_data : String) : Bool :=
  if image_data = "" then false
  else if strStartsWith image_data "data:image/" && hasSubList base64Marker image_data.data then
    true
  else if strStartsWith image_data "http://" || strStartsWith image_data "https://" ||
      strStartsWith image_data "//" || strStartsWith image_data "/" then
    false
  else exceptOk (pyB64Decode (cleanBase64Payload image_data))

/-- Modelled from the spec: the three-step decision policy of spec section
4.3 exactly as worded — (1) a data-URI pattern returns true without
decoding, (2) a URL-shaped string returns false, (3) otherwise the cleaned,
padded payload is accepted iff the base64 decode succeeds.  The spec lists
no separate rule for the empty string. -/
def isBase64ImagePolicy (image_data : String) : Bool :=
  if strStartsWith image_data "data:image/" && hasSubList base64Marker image_data.data then
    true
  else if strStartsWith image_data "http://" || strStartsWith image_data "https://" ||
      strStartsWith image_data "//" || strStartsWith image_data "/" then
    false
  else exceptOk (pyB64Decode (cleanBase64Payload image_data))

/-! ## Model of json.loads and ast.literal_eval -/

/-- The JSON whitespace characters skipped by Python's json module. -/
def jsonWsChar (c : Char) : Bool := c = ' ' || c = '\t' || c = '\n' || c = '\r'

def jsonWs (cs : List Char) : List Char := cs.dropWhile jsonWsChar

def hexVal (c : Char) : Option Nat :=
  if '0' ≤ c && c ≤ '9' then Option.some (c.toNat - 48)
  else if 'a' ≤ c && c ≤ 'f' then Option.some (c.toNat - 87)
  else if 'A' ≤ c && c ≤ 'F' then Option.some (c.toNat - 55)
  else Option.none

/-- Assignment into a Python dict: an existing key keeps its position and
gets the new value, a new key is appended.  This is CPython dict-update
semantics, so repeated assignments make the last occurrence win. -/
def dictInsert (k v : PyVal) : List (PyVal × PyVal) → List (PyVal × PyVal)
  | [] => [(k, v)]
  | (k2, v2) :: rest =>
    if pyValEq k2 k then (k2, v) :: rest else (k2, v2) :: dictInsert k v rest

def dictLookup (k : PyVal) : List (PyVal × PyVal) → Option PyVal
  | [] => Option.none
  | (k2, v) :: rest => if pyValEq k2 k then Option.some v else dictLookup k rest

/-- Body of a JSON string after the opening quote, with the JSON escape
sequences; unescaped control characters are rejected (strict mode, the
json.loads default).  Fueled; the fuel passed by callers always exceeds the
input length, and every recursive call consumes at least one character. -/
def jsonStringAux : Nat → List Char → List Char → Option (String × List Char)
  | 0, _, _ => Option.none
  | fuel + 1, acc, cs =>
    match cs with
    | [] => Option.none
    | c :: rest =>
      if c = '"' then Option.some (String.mk acc.reverse, rest)
      else if c = '\\' then
        match rest with
        | [] => Option.none
        | e :: rest2 =>
          if e = '"' then jsonStringAux fuel ('"' :: acc) rest2
          else if e = '\\' then jsonStringAux fuel ('\\' :: acc) rest2
          else if e = '/' then jsonStringAux fuel ('/' :: acc) rest2
          else if e = 'b' then jsonStringAux fuel ('\x08' :: acc) rest2
          else if e = 'f' then jsonStringAux fuel ('\x0c' :: acc) rest2
          else if e = 'n' then jsonStringAux fuel ('\n' :: acc) rest2
          else if e = 'r' then jsonStringAux fuel ('\r' :: acc) rest2
          else if e = 't' then jsonStringAux fuel ('\t' :: acc) rest2
          else if e = 'u' then
            match rest2 with
            | h1 :: h2 :: h3 :: h4 :: rest3 =>
              match hexVal h1, hexVal h2, hexVal h3, hexVal h4 with
              | Option.some a, Option.some b, Option.some c2, Option.some d =>
                jsonStringAux fuel (Char.ofNat (((a * 16 + b) * 16 + c2) * 16 + d) :: acc) rest3
              | _, _, _, _ => Option.none
            | _ => Option.none
          else Option.none
      else if c.toNat < 32 then Option.none
      else jsonStringAux fuel (c :: acc) rest

def stripLit (lit : List Char) (cs : List Char) : Option (List Char) :=
  if List.isPrefixOf lit cs then Option.some (cs.drop lit.length) else Option.none

def digitsToNat (ds : List Char) : Nat := ds.foldl (fun acc c => acc * 10 + (c.toNat - 48)) 0

/-- Exponent tail of a JSON number, after the e or E: optional sign then at
least one digit.  Returns the consumed characters and the rest. -/
def parseExpTail (cs : List Char) : Option (List Char × List Char) :=
  let signed : List Char × List Char :=
    match cs with
    | '+' :: r => (['+'], r)
    | '-' :: r => (['-'], r)
    | _ => ([], cs)
  let ds := signed.2.takeWhile Char.isDigit
  if ds.isEmpty then Option.none
  else Option.some (signed.1 ++ ds, signed.2.dropWhile Char.isDigit)

/-- A JSON number per Python's json NUMBER_RE: an optional minus, an
integer part that is 0 or starts with a nonzero digit, an optional
fraction, an optional exponent.  A number with no fraction and no exponent
becomes a Python int, otherwise a float (kept as its lexeme). -/
def parseJsonNumber (cs : List Char) : Option (PyVal × List Char) :=
  let signAndRest : Bool × List Char :=
    match cs with
    | '-' :: r => (true, r)
    | _ => (false, cs)
  let neg := signAndRest.1
  match signAndRest.2 with
  | [] => Option.none
  | d :: r =>
    let intRes : Option (List Char × List Char) :=
      if d = '0' then Option.some (['0'], r)
      else if d.isDigit then
        Option.some ((d :: r).takeWhile Char.isDigit, (d :: r).dropWhile Char.isDigit)
      else Option.none
    match intRes with
    | Option.none => Option.none
    | Option.some (intDigits, rest0) =>
      let fracRes : Option (List Char × List Char) :=
        match rest0 with
        | '.' :: fr =>
          let ds := fr.takeWhile Char.isDigit
          if ds.isEmpty then Option.none
          else Option.some ('.' :: ds, fr.dropWhile Char.isDigit)
        | _ => Option.some ([], rest0)
      match fracRes with
      | Option.none => Option.none
      | Option.some (fracChars, rest1) =>
        let expRes : Option (List Char × List Char) :=
          match rest1 with
          | 'e' :: er =>
            match parseExpTail er with
            | Option.some (cs2, rr) => Option.some ('e' :: cs2, rr)
            | Option.none => Option.none
          | 'E' :: er =>
            match parseExpTail er with
            | Option.some (cs2, rr) => Option.some ('E' :: cs2, rr)
            | Option.none => Option.none
          | _ => Option.some ([], rest1)
        match expRes with
        | Option.none => Option.none
        | Option.some (expChars, rest2) =>
          if fracChars.isEmpty && expChars.isEmpty then
            let n : Int := Int.ofNat (digitsToNat intDigits)
            Option.some (PyVal.pyInt (if neg then -n else n), rest2)
          else
            Option.some (PyVal.pyFloat
              (String.mk ((if neg then ['-'] else []) ++ intDigits ++ fracChars ++ expChars)),
              rest2)

mutual

/-- A JSON value, at a position where leading whitespace has already been
skipped.  Follows Python's json.loads: the literals true, false, null, and
the Python extensions NaN, Infinity and -Infinity are accepted.  Fueled;
between two consecutive character consumptions at most three call edges
are traversed (value to container to item list to value, each edge
spending one fuel unit), so the fuel passed by jsonLoads, three times the
input length plus a constant, never runs out. -/
def jsonParseValue : Nat → List Char → Option (PyVal × List Char)
  | 0, _ => Option.none
  | fuel + 1, cs =>
    match cs with
    | [] => Option.none
    | '"' :: rest =>
      match jsonStringAux (rest.length + 1) [] rest with
      | Option.some (s, r) => Option.some (PyVal.pyStr s, r)
      | Option.none => Option.none
    | '\x7b' :: rest => jsonParseObject fuel (jsonWs rest)
    | '[' :: rest => jsonParseArray fuel (jsonWs rest)
    | c :: rest =>
      if c = 't' then
        match stripLit (String.data "rue") rest with
        | Option.some r => Option.some (PyVal.pyBool true, r)
        | Option.none => Option.none
      else if c = 'f' then
        match stripLit (String.data "alse") rest with
        | Option.some r => Option.some (PyVal.pyBool false, r)
        | Option.none => Option.none
      else if c = 'n' then
        match stripLit (String.data "ull") rest with
        | Option.some r => Option.some (PyVal.pyNone, r)
        | Option.none => Option.none
      else if c = 'N' then
        match stripLit (String.data "aN") rest with
        | Option.some r => Option.some (PyVal.pyFloat "nan", r)
        | Option.none => Option.none
      else if c = 'I' then
        match stripLit (String.data "nfinity") rest with
        | Option.some r => Option.some (PyVal.pyFloat "inf", r)
        | Option.none => Option.none
      else if c = '-' then
        match stripLit (String.data "Infinity") rest with
        | Option.some r => Option.some (PyVal.pyFloat "-inf", r)
        | Option.none => parseJsonNumber (c :: rest)
      else if c.isDigit then parseJsonNumber (c :: rest)
      else Option.none

/-- A JSON object, after the opening brace and following whitespace. -/
def jsonParseObject : Nat → List Char → Option (PyVal × List Char)
  | 0, _ => Option.none
  | fuel + 1, cs =>
    match cs with
    | '\x7d' :: rest => Option.some (PyVal.pyDict [], rest)
    | _ => jsonParseMembers fuel cs []

def jsonParseMembers : Nat → List Char → List (PyVal × PyVal) → Option (PyVal × List Char)
  | 0, _, _ => Option.none
  | fuel + 1, cs, acc =>
    match cs with
    | '"' :: rest =>
      match jsonStringAux (rest.length + 1) [] rest with
      | Option.some (k, r1) =>
        match jsonWs r1 with
        | ':' :: r2 =>
          match jsonParseValue fuel (jsonWs r2) with
          | Option.some (v, r3) =>
            match jsonWs r3 with
            | ',' :: r4 => jsonParseMembers fuel (jsonWs r4) (dictInsert (PyVal.pyStr k) v acc)
            | '\x7d' :: r4 => Option.some (PyVal.pyDict (dictInsert (PyVal.pyStr k) v acc), r4)
            | _ => Option.none
          | Option.none => Option.none
        | _ => Option.none
      | Option.none => Option.none
    | _ => Option.none

/-- A JSON array, after the opening bracket and following whitespace. -/
def jsonParseArray : Nat → List Char → Option (PyVal × List Char)
  | 0, _ => Option.none
  | fuel + 1, cs =>
    match cs with
    | ']' :: rest => Option.some (PyVal.pyList [], rest)
    | _ => jsonParseElements fuel cs []

def jsonParseElements : Nat → List Char → List PyVal → Option (PyVal × List Char)
  | 0, _, _ => Option.none
  | fuel + 1, cs, acc =>
    match jsonParseValue fuel cs with
    | Option.some (v, r1) =>
      match jsonWs r1 with
      | ',' :: r2 => jsonParseElements fuel (jsonWs r2) (v :: acc)
      | ']' :: r2 => Option.some (PyVal.pyList (v :: acc).reverse, r2)
      | _ => Option.none
    | Option.none => Option.none

end

/-- Model of Python json.loads on a str argument: leading and trailing
whitespace is skipped, exactly one top-level value is parsed, anything left
over is an error (Extra data).  Failure is Option.none, success any JSON
value: json.loads does not require the top-level value to be an object. -/
def jsonLoads (s : String) : Option PyVal :=
  match jsonParseValue (3 * s.data.length + 8) (jsonWs s.data) with
  | Option.some (v, rest) => if (jsonWs rest).isEmpty then Option.some v else Option.none
  | Option.none => Option.none

def pyWs (cs : List Char) : List Char := cs.dropWhile isPySpace

/-- Body of a Python string literal after the opening quote `q`, with the
common escape sequences; an unknown escape keeps its backslash, as in
CPython.  Fueled like jsonStringAux. -/
def pyLitStringAux : Nat → Char → List Char → List Char → Option (String × List Char)
  | 0, _, _, _ => Option.none
  | fuel + 1, q, acc, cs =>
    match cs with
    | [] => Option.none
    | c :: rest =>
      if c = q then Option.some (String.mk acc.reverse, rest)
      else if c = '\\' then
        match rest with
        | [] => Option.none
        | e :: rest2 =>
          if e = 'n' then pyLitStringAux fuel q ('\n' :: acc) rest2
          else if e = 't' then pyLitStringAux fuel q ('\t' :: acc) rest2
          else if e = 'r' then pyLitStringAux fuel q ('\r' :: acc) rest2
          else if e = '\\' then pyLitStringAux fuel q ('\\' :: acc) rest2
          else if e = '\'' then pyLitStringAux fuel q ('\'' :: acc) rest2
          else if e = '"' then pyLitStringAux fuel q ('"' :: acc) rest2
          else if e = 'b' then pyLitStringAux fuel q ('\x08' :: acc) rest2
          else if e = 'f' then pyLitStringAux fuel q ('\x0c' :: acc) rest2
          else if e = 'v' then pyLitStringAux fuel q ('\x0b' :: acc) rest2
          else if e = '0' then pyLitStringAux fuel q ('\x00' :: acc) rest2
          else if e = 'x' then
            match rest2 with
            | h1 :: h2 :: rest3 =>
              match hexVal h1, hexVal h2 with
              | Option.some a, Option.some b =>
                pyLitStringAux fuel q (Char.ofNat (a * 16 + b) :: acc) rest3
              | _, _ => Option.none
            | _ => Option.none
          else if e = 'u' then
            match rest2 with
            | h1 :: h2 :: h3 :: h4 :: rest3 =>
              match hexVal h1, hexVal h2, hexVal h3, hexVal h4 with
              | Option.some a, Option.some b, Option.some c2, Option.some d =>
                pyLitStringAux fuel q (Char.ofNat (((a * 16 + b) * 16 + c2) * 16 + d) :: acc) rest3
              | _, _, _, _ => Option.none
            | _ => Option.none
          else pyLitStringAux fuel q (e :: '\\' :: acc) rest2
      else if c = '\n' then Option.none
      else pyLitStringAux fuel q (c :: acc) rest

/-- A run of digits under Python's underscore-grouping rule: an underscore
is allowed only when a further digit follows it.  A leading underscore is
accepted here because the radix-prefixed forms (0x_ff) allow one; decimal
entry points consume their first digit before calling.  Returns the digits
with the underscores removed. -/
def groupedDigitsAux (isD : Char → Bool) : List Char → List Char → Option (List Char × List Char)
  | acc, [] => if acc.isEmpty then Option.none else Option.some (acc.reverse, [])
  | acc, '_' :: rest =>
    match rest with
    | d :: rest2 => if isD d then groupedDigitsAux isD (d :: acc) rest2 else Option.none
    | [] => Option.none
  | acc, c :: rest =>
    if isD c then groupedDigitsAux isD (c :: acc) rest
    else if acc.isEmpty then Option.none
    else Option.some (acc.reverse, c :: rest)

/-- A decimal digitpart: digit ([_] digit)*. -/
def pyDecDigitPart (cs : List Char) : Option (List Char × List Char) :=
  match cs with
  | c :: rest => if c.isDigit then groupedDigitsAux Char.isDigit [c] rest else Option.none
  | [] => Option.none

def isHexDigitChar (c : Char) : Bool := (hexVal c).isSome

def isOctDigitChar (c : Char) : Bool := '0' ≤ c && c ≤ '7'

def isBinDigitChar (c : Char) : Bool := c = '0' || c = '1'

def foldDigitsRadix (radix : Nat) (val : Char → Nat) (ds : List Char) : Nat :=
  ds.foldl (fun acc c => acc * radix + val c) 0

def mkSignedInt (neg : Bool) (n : Nat) : PyVal :=
  PyVal.pyInt (if neg then -(Int.ofNat n) else Int.ofNat n)

/-- The exponent tail of a Python float, after the e or E: an optional
sign then a digitpart. -/
def pyExpTail (er : List Char) : Option (List Char) :=
  match er with
  | '+' :: er2 => (pyDecDigitPart er2).map Prod.snd
  | '-' :: er2 => (pyDecDigitPart er2).map Prod.snd
  | _ => (pyDecDigitPart er).map Prod.snd

/-- A decimal Python number after any sign: integer (with the decimal
leading-zero rule), pointfloat (fraction, leading or trailing dot),
exponentfloat, or either of those with a j suffix (complex).  Floats and
complex numbers are kept as their lexeme. -/
def pyLitDecNumber (neg : Bool) (cs : List Char) : Option (PyVal × List Char) :=
  let body : List Char → List Char := fun rest => cs.take (cs.length - rest.length)
  let withSign : List Char → String := fun b =>
    String.mk ((if neg then ['-'] else []) ++ b)
  let intStep : Option (List Char × List Char) :=
    match cs with
    | '.' :: _ => Option.some ([], cs)
    | _ => pyDecDigitPart cs
  match intStep with
  | Option.none => Option.none
  | Option.some (intDs, rest0) =>
    let fracStep : Option (Bool × List Char) :=
      match rest0 with
      | '.' :: fr =>
        match pyDecDigitPart fr with
        | Option.some (_, r) => Option.some (true, r)
        | Option.none => if intDs.isEmpty then Option.none else Option.some (true, fr)
      | _ => if intDs.isEmpty then Option.none else Option.some (false, rest0)
    match fracStep with
    | Option.none => Option.none
    | Option.some (isF1, rest1) =>
      let expStep : Option (Bool × List Char) :=
        match rest1 with
        | 'e' :: er => (pyExpTail er).map (fun r => (true, r))
        | 'E' :: er => (pyExpTail er).map (fun r => (true, r))
        | _ => Option.some (false, rest1)
      match expStep with
      | Option.none => Option.none
      | Option.some (isF2, rest2) =>
        match rest2 with
        | 'j' :: r3 => Option.some (PyVal.pyComplex (withSign (body r3)), r3)
        | 'J' :: r3 => Option.some (PyVal.pyComplex (withSign (body r3)), r3)
        | _ =>
          if isF1 || isF2 then Option.some (PyVal.pyFloat (withSign (body rest2)), rest2)
          else if intDs.head? = Option.some '0' && ! intDs.all (fun c => c = '0') then
            Option.none
          else Option.some (mkSignedInt neg (digitsToNat intDs), rest2)

/-- A Python numeric literal after any sign: 0x/0o/0b integers with
underscore grouping, else a decimal number. -/
def pyLitNumber (neg : Bool) (cs : List Char) : Option (PyVal × List Char) :=
  match cs with
  | '0' :: x :: rest =>
    if x = 'x' || x = 'X' then
      match groupedDigitsAux isHexDigitChar [] rest with
      | Option.some (ds, r) =>
        Option.some (mkSignedInt neg (foldDigitsRadix 16 (fun c => (hexVal c).getD 0) ds), r)
      | Option.none => Option.none
    else if x = 'o' || x = 'O' then
      match groupedDigitsAux isOctDigitChar [] rest with
      | Option.some (ds, r) =>
        Option.some (mkSignedInt neg (foldDigitsRadix 8 (fun c => c.toNat - 48) ds), r)
      | Option.none => Option.none
    else if x = 'b' || x = 'B' then
      match groupedDigitsAux isBinDigitChar [] rest with
      | Option.some (ds, r) =>
        Option.some (mkSignedInt neg (foldDigitsRadix 2 (fun c => c.toNat - 48) ds), r)
      | Option.none => Option.none
    else pyLitDecNumber neg cs
  | _ => pyLitDecNumber neg cs

mutual

/-- A Python literal value at a position where leading whitespace has been
skipped.  Models ast.literal_eval: True / False / None, single- or
double-quoted strings, numbers (decimal and radix-prefixed integers with
underscore grouping, floats, complex) with an optional single sign that
may be separated by whitespace, lists, tuples (and plain parenthesized
values), sets and dicts with arbitrary literal keys, all with trailing
commas.  Known gaps, all unexercised by the theorems below (the claims
hypothesize only the branch guard isBracedStripped, never this parser):
bytes / raw / triple-quoted / adjacent-concatenated strings, Ellipsis,
the complex additions (1+2j), unary minus on booleans, top-level
parenless tuples, and the tokenizer's bracket-sensitive newline rules
(whitespace is skipped uniformly here). -/
def pyLitValue : Nat → List Char → Option (PyVal × List Char)
  | 0, _ => Option.none
  | fuel + 1, cs =>
    match cs with
    | [] => Option.none
    | '\'' :: rest => pyLitString (rest.length + 1) '\'' rest
    | '"' :: rest => pyLitString (rest.length + 1) '"' rest
    | '\x7b' :: rest => pyLitBrace fuel (pyWs rest)
    | '[' :: rest => pyLitList fuel (pyWs rest)
    | '(' :: rest => pyLitParen fuel (pyWs rest)
    | c :: rest =>
      if c = 'T' then
        match stripLit (String.data "rue") rest with
        | Option.some r => Option.some (PyVal.pyBool true, r)
        | Option.none => Option.none
      else if c = 'F' then
        match stripLit (String.data "alse") rest with
        | Option.some r => Option.some (PyVal.pyBool false, r)
        | Option.none => Option.none
      else if c = 'N' then
        match stripLit (String.data "one") rest with
        | Option.some r => Option.some (PyVal.pyNone, r)
        | Option.none => Option.none
      else if c = '-' then pyLitNumber true (pyWs rest)
      else if c = '+' then pyLitNumber false (pyWs rest)
      else if c.isDigit || c = '.' then pyLitNumber false (c :: rest)
      else Option.none

def pyLitString : Nat → Char → List Char → Option (PyVal × List Char)
  | fuel, q, cs =>
    match pyLitStringAux fuel q [] cs with
    | Option.some (s, r) => Option.some (PyVal.pyStr s, r)
    | Option.none => Option.none

/-- Inside braces, after the opening brace and whitespace: an empty dict,
or the first value decides between dict mode (colon) and set mode. -/
def pyLitBrace : Nat → List Char → Option (PyVal × List Char)
  | 0, _ => Option.none
  | fuel + 1, cs =>
    match cs with
    | '\x7d' :: rest => Option.some (PyVal.pyDict [], rest)
    | _ =>
      match pyLitValue fuel cs with
      | Option.some (v1, r1) =>
        match pyWs r1 with
        | ':' :: r2 =>
          match pyLitValue fuel (pyWs r2) with
          | Option.some (w1, r3) => pyLitDictRest fuel (pyWs r3) (dictInsert v1 w1 [])
          | Option.none => Option.none
        | ',' :: r2 =>
          match pyWs r2 with
          | '\x7d' :: r3 => Option.some (PyVal.pySet [v1], r3)
          | r3 => pyLitSetItems fuel r3 [v1]
        | '\x7d' :: r2 => Option.some (PyVal.pySet [v1], r2)
        | _ => Option.none
      | Option.none => Option.none

/-- After a completed dict pair, at a comma or the closing brace. -/
def pyLitDictRest : Nat → List Char → List (PyVal × PyVal) → Option (PyVal × List Char)
  | 0, _, _ => Option.none
  | fuel + 1, cs, acc =>
    match cs with
    | '\x7d' :: rest => Option.some (PyVal.pyDict acc, rest)
    | ',' :: r1 =>
      match pyWs r1 with
      | '\x7d' :: r2 => Option.some (PyVal.pyDict acc, r2)
      | r2 =>
        match pyLitValue fuel r2 with
        | Option.some (k, r3) =>
          match pyWs r3 with
          | ':' :: r4 =>
            match pyLitValue fuel (pyWs r4) with
            | Option.some (v, r5) => pyLitDictRest fuel (pyWs r5) (dictInsert k v acc)
            | Option.none => Option.none
          | _ => Option.none
        | Option.none => Option.none
    | _ => Option.none

def pyLitSetItems : Nat → List Char → List PyVal → Option (PyVal × List Char)
  | 0, _, _ => Option.none
  | fuel + 1, cs, acc =>
    match pyLitValue fuel cs with
    | Option.some (v, r1) =>
      match pyWs r1 with
      | ',' :: r2 =>
        match pyWs r2 with
        | '\x7d' :: r3 => Option.some (PyVal.pySet (v :: acc).reverse, r3)
        | r3 => pyLitSetItems fuel r3 (v :: acc)
      | '\x7d' :: r2 => Option.some (PyVal.pySet (v :: acc).reverse, r2)
      | _ => Option.none
    | Option.none => Option.none

/-- After an opening parenthesis and whitespace: the empty tuple, a plain
parenthesized value, or a tuple of one or more comma-separated values. -/
def pyLitParen : Nat → List Char → Option (PyVal × List Char)
  | 0, _ => Option.none
  | fuel + 1, cs =>
    match cs with
    | ')' :: rest => Option.some (PyVal.pyTuple [], rest)
    | _ =>
      match pyLitValue fuel cs with
      | Option.some (v1, r1) =>
        match pyWs r1 with
        | ')' :: r2 => Option.some (v1, r2)
        | ',' :: r2 =>
          match pyWs r2 with
          | ')' :: r3 => Option.some (PyVal.pyTuple [v1], r3)
          | r3 => pyLitTupleItems fuel r3 [v1]
        | _ => Option.none
      | Option.none => Option.none

def pyLitTupleItems : Nat → List Char → List PyVal → Option (PyVal × List Char)
  | 0, _, _ => Option.none
  | fuel + 1, cs, acc =>
    match pyLitValue fuel cs with
    | Option.some (v, r1) =>
      match pyWs r1 with
      | ',' :: r2 =>
        match pyWs r2 with
        | ')' :: r3 => Option.some (PyVal.pyTuple (v :: acc).reverse, r3)
        | r3 => pyLitTupleItems fuel r3 (v :: acc)
      | ')' :: r2 => Option.some (PyVal.pyTuple (v :: acc).reverse, r2)
      | _ => Option.none
    | Option.none => Option.none

def pyLitList : Nat → List Char → Option (PyVal × List Char)
  | 0, _ => Option.none
  | fuel + 1, cs =>
    match cs with
    | ']' :: rest => Option.some (PyVal.pyList [], rest)
    | _ => pyLitListItems fuel cs []

def pyLitListItems : Nat → List Char → List PyVal → Option (PyVal × List Char)
  | 0, _, _ => Option.none
  | fuel + 1, cs, acc =>
    match pyLitValue fuel cs with
    | Option.some (v, r1) =>
      match pyWs r1 with
      | ',' :: r2 =>
        match pyWs r2 with
        | ']' :: r3 => Option.some (PyVal.pyList (v :: acc).reverse, r3)
        | r3 => pyLitListItems fuel r3 (v :: acc)
      | ']' :: r2 => Option.some (PyVal.pyList (v :: acc).reverse, r2)
      | _ => Option.none
    | Option.none => Option.none

end

/-- Model of ast.literal_eval on the subset documented at pyLitValue.
Fueled like jsonLoads: at most three call edges between consecutive
character consumptions, so three times the length plus a constant
suffices. -/
def literalEval (s : String) : Option PyVal :=
  match pyLitValue (3 * s.data.length + 8) (pyWs s.data) with
  | Option.some (v, rest) => if (pyWs rest).isEmpty then Option.some v else Option.none
  | Option.none => Option.none

/-! ## The flexible parameter coercer (str_to_dict_validator) -/

/-- Python str.split on a single separator character: no limit, empty
segments kept, the empty string yielding one empty segment. -/
def pySplitChar (sep : Char) : List Char → List (List Char)
  | [] => [[]]
  | c :: rest =>
    if c = sep then [] :: pySplitChar sep rest
    else
      match pySplitChar sep rest with
      | [] => [[c]]
      | g :: gs => (c :: g) :: gs

/-- Python pair.split(sep, 1) when sep occurs: the part before the first
occurrence and the part after it; Option.none when sep does not occur. -/
def splitFirstOn (sep : Char) : List Char → Option (List Char × List Char)
  | [] => Option.none
  | c :: rest =>
    if c = sep then Option.some ([], rest)
    else
      match splitFirstOn sep rest with
      | Option.some (a, b) => Option.some (c :: a, b)
      | Option.none => Option.none

/-- Python str.lower restricted to the ASCII case mapping.  This is
extensionally adequate for the two comparisons the code performs (value
lower equal to true or to false): no non-ASCII character case-folds to a
single character among t, r, u, e, f, a, l, s, so a string lowers to true
or false under Python exactly when it does under the ASCII mapping. -/
def pyLower (s : String) : String := String.mk (s.data.map Char.toLower)

/-- The codepoint ranges of Unicode decimal digits (category Nd, the
characters int() converts), each running from digit value 0 to 9 in
order, as in the Unicode data CPython ships. -/
def decimalDigitRanges : List (Nat × Nat) := [
  (48, 57), (1632, 1641), (1776, 1785), (1984, 1993), (2406, 2415), (2534, 2543), (2662,
  2671), (2790, 2799), (2918, 2927), (3046, 3055), (3174, 3183), (3302, 3311), (3430,
  3439), (3558, 3567), (3664, 3673), (3792, 3801), (3872, 3881), (4160, 4169), (4240,
  4249), (6112, 6121), (6160, 6169), (6470, 6479), (6608, 6617), (6784, 6793), (6800,
  6809), (6992, 7001), (7088, 7097), (7232, 7241), (7248, 7257), (42528, 42537), (43216,
  43225), (43264, 43273), (43472, 43481), (43504, 43513), (43600, 43609), (44016, 44025),
  (65296, 65305), (66720, 66729), (68912, 68921), (69734, 69743), (69872, 69881), (69942,
  69951), (70096, 70105), (70384, 70393), (70736, 70745), (70864, 70873), (71248, 71257),
  (71360, 71369), (71472, 71481), (71904, 71913), (72016, 72025), (72784, 72793), (73040,
  73049), (73120, 73129), (92768, 92777), (92864, 92873), (93008, 93017), (120782, 120791),
  (120792, 120801), (120802, 120811), (120812, 120821), (120822, 120831), (123200, 123209),
  (123632, 123641), (125264, 125273), (130032, 130041)]

/-- The codepoint ranges of characters that satisfy str.isdigit without
being decimal digits (Numeric_Type Digit), such as superscript two at
codepoint 178: int() raises ValueError on these. -/
def digitOnlyRanges : List (Nat × Nat) := [
  (178, 179), (185, 185), (4969, 4977), (6618, 6618), (8304, 8304), (8308, 8313), (8320,
  8329), (9312, 9320), (9332, 9340), (9352, 9360), (9450, 9450), (9461, 9469), (9471,
  9471), (10102, 10110), (10112, 10120), (10122, 10130), (68160, 68163), (69216, 69224),
  (69714, 69722), (127232, 127242)]

/-- The decimal value of a character, when it is a decimal digit (the
per-character conversion behind Python's int on digit strings). -/
def pyCharDecimalVal (c : Char) : Option Nat :=
  match decimalDigitRanges.find? (fun r => r.1 ≤ c.toNat && c.toNat ≤ r.2) with
  | Option.some r => Option.some (c.toNat - r.1)
  | Option.none => Option.none

/-- Python str.isdigit on one character: a decimal digit or a digit-only
character. -/
def pyCharIsDigit (c : Char) : Bool :=
  (pyCharDecimalVal c).isSome || digitOnlyRanges.any (fun r => r.1 ≤ c.toNat && c.toNat ≤ r.2)

/-- Python str.isdigit: nonempty and every character a digit. -/
def pyIsDigit (s : String) : Bool := ! s.data.isEmpty && s.data.all pyCharIsDigit

/-- Python int() on a string every character of which passes isdigit: it
succeeds iff every character is a decimal digit, reading the digit values
in base 10; a digit-only character (superscript two) raises ValueError,
modelled as Option.none. -/
def pyStrToInt (s : String) : Option Int :=
  (s.data.foldl
    (fun acc c =>
      match acc, pyCharDecimalVal c with
      | Option.some n, Option.some d => Option.some (n * 10 + d)
      | _, _ => Option.none)
    (Option.some 0)).map Int.ofNat

/-- Value conversion of the query-string strategy (tools.py lines 198-206):
case-insensitive true / false to booleans, all-digit strings to ints,
anything else kept as the string.  Option.none models the int() ValueError
on a value that is all-digit without being decimally convertible; the
except clause around the loop (tools.py lines 208-210) then abandons the
whole strategy. -/
def coerceQueryValue (value : String) : Option PyVal :=
  if pyLower value = "true" then Option.some (PyVal.pyBool true)
  else if pyLower value = "false" then Option.some (PyVal.pyBool false)
  else if pyIsDigit value then (pyStrToInt value).map PyVal.pyInt
  else Option.some (PyVal.pyStr value)

/-- The query-string strategy loop (tools.py lines 193-207): split on the
ampersand, skip pairs with no equals sign, split each remaining pair on its
first equals sign, convert the value, assign into the dict.  A conversion
error aborts the whole strategy (the exception leaves the loop and is
caught by the except clause), modelled as Option.none. -/
def queryPairsAux : List (List Char) → List (PyVal × PyVal) → Option (List (PyVal × PyVal))
  | [], acc => Option.some acc
  | p :: rest, acc =>
    match splitFirstOn '=' p with
    | Option.some (k, v) =>
      match coerceQueryValue (String.mk v) with
      | Option.some pv => queryPairsAux rest (dictInsert (PyVal.pyStr (String.mk k)) pv acc)
      | Option.none => Option.none
    | Option.none => queryPairsAux rest acc

def queryParse (s : String) : Option (List (PyVal × PyVal)) :=
  queryPairsAux (pySplitChar '&' s.data) []

/-- The raw key-value split a single ampersand-segment contributes: the
part before the first equals sign as the key (never type-coerced), the
part after it as the value text; segments with no equals sign contribute
nothing. -/
def rawKV (p : List Char) : Option (String × String) :=
  match splitFirstOn '=' p with
  | Option.some kv => Option.some (String.mk kv.1, String.mk kv.2)
  | Option.none => Option.none

/-- The raw key-value pairs of the query string in input order, before
value conversion and duplicate resolution: the spec-side description of
the split (on the ampersand, then each pair on its first equals sign). -/
def eqPairs (s : String) : List (String × String) :=
  (pySplitChar '&' s.data).filterMap rawKV

def pyStrip (s : String) : String :=
  String.mk (((s.data.dropWhile isPySpace).reverse.dropWhile isPySpace).reverse)

/-- The guard of the permissive-literal strategy (tools.py line 182):
v.strip() starts with an opening brace and ends with a closing brace. -/
def isBracedStripped (s : String) : Bool :=
  strStartsWith (pyStrip s) "\x7b" && strEndsWith (pyStrip s) "\x7d"

def isPyStr : PyVal → Bool
  | PyVal.pyStr _ => true
  | _ => false

def isPyDict : PyVal → Bool
  | PyVal.pyDict _ => true
  | _ => false

/-- str_to_dict_validator (tools.py lines 170-213): the empty string
becomes an empty dict; a string is tried as JSON, then (when braced after
stripping) as a Python literal, then (when it contains an equals sign) as a
query string; each failure falls through, and when every strategy fails or
is inapplicable — including the query loop aborting on an int() error,
whose exception the except clause at lines 208-210 catches — the string
is returned unchanged; any non-string input is returned unchanged.  Each
Python except-clause is a fall-through, so the model of each strategy
returns an Option instead of raising. -/
def str_to_dict_validator (v : PyVal) : PyVal :=
  match v with
  | PyVal.pyStr s =>
    if s = "" then PyVal.pyDict []
    else
      match jsonLoads s with
      | Option.some j => j
      | Option.none =>
        match (if isBracedStripped s then literalEval s else Option.none) with
        | Option.some l => l
        | Option.none =>
          if s.data.contains '=' then
            match queryParse s with
            | Option.some params => PyVal.pyDict params
            | Option.none => PyVal.pyStr s
          else PyVal.pyStr s
  | w => w

/-! ## The image persister, link manifest writer and search-result loop -/

/-- A single-quote character, used to build the failure message of
_save_base64_image (its Python f-string wraps the title in quotes). -/
def squote : String := String.mk [Char.ofNat 39]

/-- GoogleSearchTool._sanitize_filename (tools.py lines 462-466): drop
every character that is not a word character, whitespace or a hyphen,
strip surrounding whitespace, collapse each run of hyphens and whitespace
to one underscore, truncate to 100 characters.  Word characters are
modelled as ASCII alphanumerics plus the underscore. -/
def isWordChar (c : Char) : Bool := c.isAlphanum || c = '_'

def isDashOrSpace (c : Char) : Bool := isPySpace c || c = '-'

theorem length_dropWhile_le_local {α : Type} (p : α → Bool) (l : List α) :
    (l.dropWhile p).length ≤ l.length := by
  induction l with
  | nil => simp [List.dropWhile]
  | cons x xs ih =>
    by_cases h : p x
    · simp [List.dropWhile, h]
      omega
    · simp [List.dropWhile, h]

def collapseDashRuns : List Char → List Char
  | [] => []
  | c :: rest =>
    if isDashOrSpace c then '_' :: collapseDashRuns (rest.dropWhile isDashOrSpace)
    else c :: collapseDashRuns rest
termination_by l => l.length
decreasing_by
  · simp only [List.length_cons]
    exact Nat.lt_succ_of_le (length_dropWhile_le_local _ _)
  · simp only [List.length_cons]
    exact Nat.lt_succ_self _

def sanitize_filename (name : String) : String :=
  let kept := name.data.filter (fun c => isWordChar c || isPySpace c || c = '-')
  let stripped := ((kept.dropWhile isPySpace).reverse.dropWhile isPySpace).reverse
  String.mk ((collapseDashRuns stripped).take 100)

/-- The PNG signature 89 50 4E 47 0D 0A 1A 0A. -/
def pngMagic : List Nat := [137, 80, 78, 71, 13, 10, 26, 10]

/-- The GIF signature 47 49 46 38. -/
def gifMagic : List Nat := [71, 73, 70, 56]

/-- The RIFF container signature 52 49 46 46. -/
def riffMagic : List Nat := [82, 73, 70, 70]

/-- The WEBP marker 57 45 42 50 looked for anywhere in the bytes. -/
def webpMarker : List Nat := [87, 69, 66, 80]

/-- The JPEG signature FF D8 FF. -/
def jpgMagic : List Nat := [255, 216, 255]

/-- Format sniffing of _save_base64_image (tools.py lines 517-526): the
decoded bytes alone decide the extension, default jpg. -/
def detect_image_format (image_bytes : List Nat) : String :=
  if List.isPrefixOf pngMagic image_bytes then "png"
  else if List.isPrefixOf gifMagic image_bytes then "gif"
  else if List.isPrefixOf riffMagic image_bytes && hasSubList webpMarker image_bytes then
    "webp"
  else if List.isPrefixOf jpgMagic image_bytes then "jpg"
  else "jpg"

/-- Outcome of one _save_base64_image call: the file it wrote (path and
bytes), if any, and the string it returned. -/
structure SaveImageOutcome where
  written : Option (String × List Nat)
  message : String

/-- GoogleSearchTool._save_base64_image (tools.py lines 499-540), with the
filesystem effect made explicit: clean the payload exactly as the
classifier does, decode it, sniff the format from the decoded bytes, write
prefix_sanitizedTitle.format under the folder and report the path; a decode
failure is caught and reported as a failure string carrying the title, with
nothing written.  os.path.join is modelled as joining with a slash. -/
def save_base64_image (image_data folder_path filename_pre title : String) : SaveImageOutcome :=
  match pyB64Decode (cleanBase64Payload image_data) with
  | Except.error e =>
    { written := Option.none,
      message := "Failed to save " ++ squote ++ title ++ squote ++ ": " ++ e }
  | Except.ok image_bytes =>
    let image_format := detect_image_format image_bytes
    let filename := filename_pre ++ "_" ++ sanitize_filename title ++ "." ++ image_format
    let file_path := folder_path ++ "/" ++ filename
    { written := Option.some (file_path, image_bytes), message := "Saved: " ++ file_path }

/-- One entry of the image-search result list, after the field extraction
of _handle_image_search (image defaulting to the empty string, title to
untitled, position to 0). -/
structure ImageRecord where
  image : String
  title : String
  position : Int

/-- An element of the base64_images list built by _handle_image_search. -/
structure Base64ImageItem where
  data : String
  title : String
  position : Int

/-- An element of the image_links list built by _handle_image_search. -/
structure ImageLinkEntry where
  url : String
  title : String
  position : Int

def toBase64Item (r : ImageRecord) : Base64ImageItem :=
  { data := r.image, title := r.title, position := r.position }

def toLinkEntry (r : ImageRecord) : ImageLinkEntry :=
  { url := r.image, title := r.title, position := r.position }

/-- The record loop of _handle_image_search (tools.py lines 612-628): each
record is appended to base64_images when the classifier accepts its image
field and to image_links otherwise. -/
def partitionImageResults (image_results : List ImageRecord) :
    List Base64ImageItem × List ImageLinkEntry :=
  image_results.foldl
    (fun acc item =>
      if is_base64_image item.image then (acc.1 ++ [toBase64Item item], acc.2)
      else (acc.1, acc.2 ++ [toLinkEntry item]))
    ([], [])

/-- Python format spec 02d, as used for the filename prefix built from the
record position (tools.py line 636). -/
def pad2 (n : Int) : String :=
  let s := toString n
  if s.length < 2 then "0" ++ s else s

/-- The save loop of _handle_image_search (tools.py lines 631-639): one
_save_base64_image call per base64 record, collecting every outcome. -/
def saveBase64Images (items : List Base64ImageItem) (folder_path : String) :
    List SaveImageOutcome :=
  items.map (fun it => save_base64_image it.data folder_path (pad2 it.position) it.title)

/-- Outcome of one _save_image_links call: the manifest file it wrote
(path and content), if any, and the string it returned. -/
structure SaveLinksOutcome where
  written : Option (String × String)
  message : String

def imageLinksHeader (now : String) : String :=
  "# Image Links from Google Search\n" ++ "# Generated: " ++ now ++ "\n\n"

def linkBlock (i : Nat) (e : ImageLinkEntry) : String :=
  toString i ++ ". Title: " ++ e.title ++ "\n" ++
  "   URL: " ++ e.url ++ "\n" ++
  "   Position: " ++ toString e.position ++ "\n\n"

def linkBlocksFrom : Nat → List ImageLinkEntry → String
  | _, [] => ""
  | i, e :: rest => linkBlock i e ++ linkBlocksFrom (i + 1) rest

/-- GoogleSearchTool._save_image_links (tools.py lines 542-561), with the
filesystem and the clock made explicit (`now` is the generation timestamp
the code takes from datetime.now().isoformat()): an empty list writes
nothing and reports that there were no links; otherwise one manifest file
image_links.txt is written with a header and one numbered block per entry,
and the saved count is reported. -/
def save_image_links (image_links : List ImageLinkEntry) (folder_path now : String) :
    SaveLinksOutcome :=
  if image_links.isEmpty then
    { written := Option.none, message := "No image links to save" }
  else
    let links_file := folder_path ++ "/" ++ "image_links.txt"
    let content := imageLinksHeader now ++ linkBlocksFrom 1 image_links
    { written := Option.some (links_file, content),
      message := "Saved " ++ toString image_links.length ++ " image links to: " ++ links_file }

/-! ## The transport-error formatting of the two request paths -/

/-- A requests.RequestException as observed by the handlers: the text of
the attached response when a response is attached, and str(e). -/
structure RequestExceptionModel where
  responseText : Option String
  excMessage : String

/-- getattr(e.response, "text", str(e)): the response text when a response
is attached, otherwise the message of the exception itself. -/
def requestErrorDetail (e : RequestExceptionModel) : String :=
  match e.responseText with
  | Option.some t => t
  | Option.none => e.excMessage

/-- Python string slicing s[:n]. -/
def pyTake (n : Nat) (s : String) : String := String.mk (s.data.take n)

/-- The except-branch of ScrapeUrlTool._run (tools.py lines 395-397): the
detail is truncated to 1000 characters and embedded in an error string. -/
def scrape_url_error_result (e : RequestExceptionModel) : String :=
  "Error: Request failed. Details: " ++ pyTake 1000 (requestErrorDetail e)

/-- The except-branch of GoogleSearchTool._run (tools.py lines 572-573):
the detail is embedded in an error string with no truncation. -/
def google_search_error_result (e : RequestExceptionModel) : String :=
  "Error during Google Search API call: " ++ requestErrorDetail e

/-- Concatenation of a list of strings, used to state the manifest layout. -/
def strJoin (xs : List String) : String := xs.foldr (fun a b => a ++ b) ""

/-- A response body one character longer than the 1000-character cap the
scrape path applies to error details. -/
def longDetail : String := String.mk (List.replicate 1001 'a')

/-! ## Helper lemmas -/

theorem pyTake_length_le (n : Nat) (s : String) : (pyTake n s).length ≤ n := by
  show (s.data.take n).length ≤ n
  rw [List.length_take]
  exact min_le_left n s.data.length

theorem linkBlocksFrom_eq_join (links : List ImageLinkEntry) (n : Nat) :
    linkBlocksFrom n links =
      strJoin ((List.enumFrom n links).map (fun p => linkBlock p.1 p.2)) := by
  induction links generalizing n with
  | nil => rfl
  | cons e rest ih =>
    show linkBlock n e ++ linkBlocksFrom (n + 1) rest = _
    rw [ih]
    rfl

theorem filter_bool_length_split {α : Type} (p : α → Bool) (l : List α) :
    (l.filter p).length + (l.filter (fun a => ! p a)).length = l.length := by
  induction l with
  | nil => rfl
  | cons a l ih =>
    cases h : p a with
    | true =>
      simp [List.filter_cons, h]
      omega
    | false =>
      simp [List.filter_cons, h]
      omega

theorem partitionImageResults_go (records : List ImageRecord)
    (acc1 : List Base64ImageItem) (acc2 : List ImageLinkEntry) :
    records.foldl
      (fun acc item =>
        if is_base64_image item.image then (acc.1 ++ [toBase64Item item], acc.2)
        else (acc.1, acc.2 ++ [toLinkEntry item]))
      (acc1, acc2) =
      (acc1 ++ (records.filter (fun r => is_base64_image r.image)).map toBase64Item,
       acc2 ++ (records.filter (fun r => ! is_base64_image r.image)).map toLinkEntry) := by
  induction records generalizing acc1 acc2 with
  | nil => simp
  | cons r rest ih =>
    by_cases h : is_base64_image r.image
    · simp [List.foldl_cons, h, ih, List.filter_cons]
    · simp [List.foldl_cons, h, ih, List.filter_cons]

theorem isPrefixOf_head_ne {a b : Nat} {as bs l : List Nat}
    (h : List.isPrefixOf (a :: as) l = true) (hne : b ≠ a) :
    List.isPrefixOf (b :: bs) l = false := by
  cases l with
  | nil => simp [List.isPrefixOf] at h
  | cons x xs =>
    simp only [List.isPrefixOf, Bool.and_eq_true, beq_iff_eq] at h
    obtain ⟨hax, -⟩ := h
    simp only [List.isPrefixOf, Bool.and_eq_false_iff, beq_eq_false_iff_ne, ne_eq]
    left
    intro hbx
    exact hne (hbx.trans hax.symm)

/-! ## The claims -/

/-- C10: the classifier returns false for the empty string — the falsy
guard rejects an empty image field before any decoding is attempted — even
though a base64 decode of the (cleaned, padded) empty payload succeeds. -/
theorem C10_empty_string_rejected :
    is_base64_image "" = false ∧
    exceptOk (pyB64Decode (cleanBase64Payload "")) = true := by
  constructor
  · rfl
  · rfl

/-- C1, counterexample: on the empty string the classifier returns false
while the three-step decision policy of the spec returns true (the decode
of the empty payload succeeds), so the classifier does not follow the
policy on every string. -/
theorem C1_counterexample :
    is_base64_image "" = false ∧ isBase64ImagePolicy "" = true := by
  constructor
  · rfl
  · rfl

/-- C1 (amended: for every nonempty string): the classifier follows the
three-step decision policy — data-URI pattern accepted without decoding,
URL-shaped strings rejected, otherwise accepted iff the cleaned and padded
payload decodes, with no exception escaping. -/
theorem C1_classifier_follows_policy (s : String) (h : s ≠ "") :
    is_base64_image s = isBase64ImagePolicy s := by
  unfold is_base64_image isBase64ImagePolicy
  rw [if_neg h]

theorem C1_classifier_follows_policy_witness :
    is_base64_image "https://x.com/a.png" = isBase64ImagePolicy "https://x.com/a.png" ∧
    is_base64_image "data:image/png;base64,iVBORw0KGgo=" =
      isBase64ImagePolicy "data:image/png;base64,iVBORw0KGgo=" :=
  ⟨C1_classifier_follows_policy "https://x.com/a.png" (by decide),
   C1_classifier_follows_policy "data:image/png;base64,iVBORw0KGgo=" (by decide)⟩

/-- C8, counterexample: the Google-search error path embeds the response
text without any truncation, so with a 1001-character response text its
error string exceeds the 1000-character detail cap that the scrape path
applies; the detail is not capped on both paths. -/
theorem C8_counterexample :
    ¬ ((google_search_error_result
        { responseText := Option.some longDetail, excMessage := "" }).length ≤
      "Error during Google Search API call: ".length + 1000) := by
  have hlen : (google_search_error_result
      { responseText := Option.some longDetail, excMessage := "" }).length =
      "Error during Google Search API call: ".length + 1001 := by
    show ("Error during Google Search API call: " ++ longDetail).length = _
    rw [String.length_append]
    have : longDetail.length = 1001 := by
      show (List.replicate 1001 'a').length = 1001
      exact List.length_replicate 1001 'a'
    rw [this]
  omega

/-- C8 (amended): both request paths turn a transport error into a
formatted error string; the scrape path truncates the detail to 1000
characters, while the Google-search path embeds the full detail with no
truncation. -/
theorem C8_error_strings (e : RequestExceptionModel) :
    (scrape_url_error_result e).length ≤ "Error: Request failed. Details: ".length + 1000 ∧
    scrape_url_error_result e =
      "Error: Request failed. Details: " ++ pyTake 1000 (requestErrorDetail e) ∧
    google_search_error_result e =
      "Error during Google Search API call: " ++ requestErrorDetail e := by
  refine ⟨?_, rfl, rfl⟩
  rw [show scrape_url_error_result e =
    "Error: Request failed. Details: " ++ pyTake 1000 (requestErrorDetail e) from rfl]
  rw [String.length_append]
  have := pyTake_length_le 1000 (requestErrorDetail e)
  omega

/-- C9: the link manifest writer writes no file and reports a zero-count,
non-error outcome on an empty list; on a nonempty list it writes exactly
one manifest file whose content is the generation-timestamp header followed
by one numbered block per entry (title, URL and position), numbered from 1
in input order, and reports the saved count. -/
theorem C9_save_image_links :
    (∀ folder now, save_image_links [] folder now =
      { written := Option.none, message := "No image links to save" }) ∧
    (∀ (links : List ImageLinkEntry) (folder now : String), links ≠ [] →
      save_image_links links folder now =
        { written := Option.some (folder ++ "/" ++ "image_links.txt",
            imageLinksHeader now ++
              strJoin ((List.enumFrom 1 links).map (fun p => linkBlock p.1 p.2))),
          message := "Saved " ++ toString links.length ++ " image links to: " ++
            (folder ++ "/" ++ "image_links.txt") }) := by
  constructor
  · intro folder now
    rfl
  · intro links folder now h
    have hb : links.isEmpty = false := by
      cases links with
      | nil => exact absurd rfl h
      | cons a l => rfl
    rw [save_image_links, hb]
    simp only [Bool.false_eq_true, if_false]
    rw [linkBlocksFrom_eq_join]

theorem C9_save_image_links_witness :
    save_image_links [{ url := "https://x.com/a.png", title := "A", position := 3 }]
        "out" "2026-10-12T00:00:00" =
      { written := Option.some ("out" ++ "/" ++ "image_links.txt",
          imageLinksHeader "2026-10-12T00:00:00" ++
            strJoin ((List.enumFrom 1
              [({ url := "https://x.com/a.png", title := "A", position := 3 } : ImageLinkEntry)]).map
                (fun p => linkBlock p.1 p.2))),
        message := "Saved " ++
          toString ([({ url := "https://x.com/a.png", title := "A", position := 3 } : ImageLinkEntry)]).length
          ++ " image links to: " ++ ("out" ++ "/" ++ "image_links.txt") } :=
  C9_save_image_links.2 [{ url := "https://x.com/a.png", title := "A", position := 3 }]
    "out" "2026-10-12T00:00:00" (List.cons_ne_nil _ _)

/-- C7: in the image-search handler every record is appended to exactly
one of the base64 list and the link list according to the classifier — the
two lists are the complementary filters of the record list, their lengths
sum to the number of records — and the save loop produces exactly one
outcome per base64 record, so a decode failure yields an error entry
rather than a dropped record. -/
theorem C7_each_record_exactly_one (records : List ImageRecord) (folder : String) :
    (partitionImageResults records).1 =
      (records.filter (fun r => is_base64_image r.image)).map toBase64Item ∧
    (partitionImageResults records).2 =
      (records.filter (fun r => ! is_base64_image r.image)).map toLinkEntry ∧
    (partitionImageResults records).1.length + (partitionImageResults records).2.length =
      records.length ∧
    (saveBase64Images (partitionImageResults records).1 folder).length =
      (partitionImageResults records).1.length := by
  have hgo := partitionImageResults_go records [] []
  have hpart : partitionImageResults records =
      ((records.filter (fun r => is_base64_image r.image)).map toBase64Item,
       (records.filter (fun r => ! is_base64_image r.image)).map toLinkEntry) := by
    rw [partitionImageResults, hgo]
    simp
  refine ⟨by rw [hpart], by rw [hpart], ?_, ?_⟩
  · rw [hpart]
    simp only [List.length_map]
    exact filter_bool_length_split (fun r => is_base64_image r.image) records
  · rw [saveBase64Images, List.length_map]

/-- C5: on a successfully decoded payload the persister writes the file
under a name whose extension is detect_image_format of the decoded bytes,
which depends only on the leading magic bytes — PNG, GIF, RIFF-with-WEBP
and JPEG signatures map to their formats and anything else defaults to
jpg — and in particular a payload declaring MIME type image/jpeg but
decoding to PNG magic bytes is saved with extension png. -/
theorem C5_format_from_magic_bytes (image_data folder pre title : String)
    (image_bytes : List Nat)
    (hok : pyB64Decode (cleanBase64Payload image_data) = Except.ok image_bytes) :
    (save_base64_image image_data folder pre title).written =
      Option.some (folder ++ "/" ++ (pre ++ "_" ++ sanitize_filename title ++ "." ++
        detect_image_format image_bytes), image_bytes) ∧
    (List.isPrefixOf pngMagic image_bytes = true →
      detect_image_format image_bytes = "png") ∧
    (List.isPrefixOf gifMagic image_bytes = true →
      detect_image_format image_bytes = "gif") ∧
    ((List.isPrefixOf riffMagic image_bytes && hasSubList webpMarker image_bytes) = true →
      detect_image_format image_bytes = "webp") ∧
    (List.isPrefixOf jpgMagic image_bytes = true →
      detect_image_format image_bytes = "jpg") ∧
    (List.isPrefixOf pngMagic image_bytes = false →
      List.isPrefixOf gifMagic image_bytes = false →
      (List.isPrefixOf riffMagic image_bytes && hasSubList webpMarker image_bytes) = false →
      List.isPrefixOf jpgMagic image_bytes = false →
      detect_image_format image_bytes = "jpg") ∧
    (save_base64_image "data:image/jpeg;base64,iVBORw0KGgo=" folder pre title).written =
      Option.some (folder ++ "/" ++ (pre ++ "_" ++ sanitize_filename title ++ "." ++ "png"),
        pngMagic) := by
  refine ⟨?_, ?_, ?_, ?_, ?_, ?_, ?_⟩
  · simp [save_base64_image, hok]
  · intro h
    simp [detect_image_format, h]
  · intro h
    have hpng : List.isPrefixOf pngMagic image_bytes = false :=
      isPrefixOf_head_ne (a := 71) (b := 137) h (by decide)
    simp [detect_image_format, hpng, h]
  · intro h
    obtain ⟨hriff, hsub⟩ := Bool.and_eq_true_iff.mp h
    have hpng : List.isPrefixOf pngMagic image_bytes = false :=
      isPrefixOf_head_ne (a := 82) (b := 137) hriff (by decide)
    have hgif : List.isPrefixOf gifMagic image_bytes = false :=
      isPrefixOf_head_ne (a := 82) (b := 71) hriff (by decide)
    simp [detect_image_format, hpng, hgif, hriff, hsub]
  · intro h
    have hpng : List.isPrefixOf pngMagic image_bytes = false :=
      isPrefixOf_head_ne (a := 255) (b := 137) h (by decide)
    have hgif : List.isPrefixOf gifMagic image_bytes = false :=
      isPrefixOf_head_ne (a := 255) (b := 71) h (by decide)
    have hriff : List.isPrefixOf riffMagic image_bytes = false :=
      isPrefixOf_head_ne (a := 255) (b := 82) h (by decide)
    simp [detect_image_format, hpng, hgif, hriff, h]
  · intro h1 h2 h3 h4
    simp [detect_image_format, h1, h2, h3, h4]
  · have hc : pyB64Decode (cleanBase64Payload "data:image/jpeg;base64,iVBORw0KGgo=") =
        Except.ok pngMagic := by rfl
    have hd : detect_image_format pngMagic = "png" := by decide
    simp [save_base64_image, hc, hd]

theorem C5_format_from_magic_bytes_witness :
    (save_base64_image "data:image/jpeg;base64,iVBORw0KGgo=" "dir" "01" "pic").written =
      Option.some ("dir" ++ "/" ++ ("01" ++ "_" ++ sanitize_filename "pic" ++ "." ++
        detect_image_format pngMagic), pngMagic) :=
  (C5_format_from_magic_bytes "data:image/jpeg;base64,iVBORw0KGgo=" "dir" "01" "pic"
    pngMagic (by rfl)).1

/-- C6: a decode failure makes the persister return a failure message that
carries the record's title (and the decode error), with nothing written to
disk; and the save loop of the handler is an independent map over the
base64 records — it produces one outcome per record at the same index —
so one record's failure does not disturb its siblings. -/
theorem C6_decode_failure_localized :
    (∀ image_data folder pre title e,
      pyB64Decode (cleanBase64Payload image_data) = Except.error e →
      save_base64_image image_data folder pre title =
        { written := Option.none,
          message := "Failed to save " ++ squote ++ title ++ squote ++ ": " ++ e }) ∧
    (∀ (items : List Base64ImageItem) (folder : String),
      (saveBase64Images items folder).length = items.length) ∧
    (∀ (items : List Base64ImageItem) (folder : String) (i : Nat),
      (saveBase64Images items folder)[i]? =
        (items[i]?).map
          (fun it => save_base64_image it.data folder (pad2 it.position) it.title)) := by
  refine ⟨?_, ?_, ?_⟩
  · intro image_data folder pre title e h
    simp [save_base64_image, h]
  · intro items folder
    rw [saveBase64Images, List.length_map]
  · intro items folder i
    rw [saveBase64Images, List.getElem?_map]

theorem C6_decode_failure_localized_witness :
    save_base64_image "a" "dir" "01" "pic" =
      { written := Option.none,
        message := "Failed to save " ++ squote ++ "pic" ++ squote ++ ": " ++
          "Invalid base64-encoded string: number of data characters (1) cannot be 1 more than a multiple of 4" } :=
  C6_decode_failure_localized.1 "a" "dir" "01" "pic"
    "Invalid base64-encoded string: number of data characters (1) cannot be 1 more than a multiple of 4"
    (by rfl)

theorem pyValEq_nonstr_pyStr (x : PyVal) (t : String) (hx : isPyStr x = false) :
    pyValEq x (PyVal.pyStr t) = false := by
  cases x with
  | pyStr s => simp [isPyStr] at hx
  | pyNone => rfl
  | pyBool b => rfl
  | pyInt n => rfl
  | pyFloat f => rfl
  | pyComplex c => rfl
  | pyList xs => rfl
  | pyTuple xs => rfl
  | pySet xs => rfl
  | pyDict kvs => rfl

theorem pyValEq_pyStr_pyStr (a b : String) :
    pyValEq (PyVal.pyStr a) (PyVal.pyStr b) = (a == b) := rfl

theorem dictLookup_dictInsert (k k2 : String) (v : PyVal) (d : List (PyVal × PyVal)) :
    dictLookup (PyVal.pyStr k) (dictInsert (PyVal.pyStr k2) v d) =
      if k2 = k then Option.some v else dictLookup (PyVal.pyStr k) d := by
  induction d with
  | nil =>
    by_cases h : k2 = k
    · subst h
      simp [dictInsert, dictLookup, pyValEq_pyStr_pyStr]
    · have hb : (k2 == k) = false := beq_eq_false_iff_ne.mpr h
      simp [dictInsert, dictLookup, pyValEq_pyStr_pyStr, hb, h]
  | cons kv rest ih =>
    obtain ⟨ka, va⟩ := kv
    by_cases hstr : isPyStr ka = true
    · rcases ka with _ | _ | _ | _ | _ | sa | _ | _ | _ | _ <;> simp [isPyStr] at hstr
      by_cases h1 : sa = k2
      · subst h1
        by_cases h2 : sa = k
        · subst h2
          simp [dictInsert, dictLookup, pyValEq_pyStr_pyStr]
        · have hb2 : (sa == k) = false := beq_eq_false_iff_ne.mpr h2
          simp [dictInsert, dictLookup, pyValEq_pyStr_pyStr, hb2, h2]
      · have hb1 : (sa == k2) = false := beq_eq_false_iff_ne.mpr h1
        by_cases h3 : sa = k
        · subst h3
          have hb4 : (k2 == sa) = false := beq_eq_false_iff_ne.mpr (fun he => h1 he.symm)
          have h5 : ¬ (k2 = sa) := fun he => h1 he.symm
          simp [dictInsert, dictLookup, pyValEq_pyStr_pyStr, hb1, h5, ih]
        · have hb3 : (sa == k) = false := beq_eq_false_iff_ne.mpr h3
          simp [dictInsert, dictLookup, pyValEq_pyStr_pyStr, hb1, hb3, ih]
    · have hfalse := Bool.eq_false_iff.mpr (fun he => hstr he)
      have e1 := pyValEq_nonstr_pyStr ka k2 hfalse
      have e2 := pyValEq_nonstr_pyStr ka k hfalse
      simp [dictInsert, dictLookup, e1, e2, ih]

theorem match_getLast?_cons_irrel (y : String × String) (ys : List (String × String))
    (d1 d2 : Option PyVal) :
    (match (y :: ys).getLast? with
     | Option.some kv => coerceQueryValue kv.2
     | Option.none => d1) =
    (match (y :: ys).getLast? with
     | Option.some kv => coerceQueryValue kv.2
     | Option.none => d2) := by
  induction ys generalizing y with
  | nil => rfl
  | cons z zs ih =>
    rw [List.getLast?_cons_cons]
    exact ih z

theorem dictLookup_queryPairsAux (pairs : List (List Char))
    (acc params : List (PyVal × PyVal)) (k : String)
    (h : queryPairsAux pairs acc = Option.some params) :
    dictLookup (PyVal.pyStr k) params =
      match ((pairs.filterMap rawKV).filter (fun kv => kv.1 = k)).getLast? with
      | Option.some kv => coerceQueryValue kv.2
      | Option.none => dictLookup (PyVal.pyStr k) acc := by
  induction pairs generalizing acc with
  | nil =>
    simp only [queryPairsAux, Option.some.injEq] at h
    subst h
    simp
  | cons p rest ih =>
    cases hp : splitFirstOn '=' p with
    | none =>
      have hkv : rawKV p = Option.none := by simp [rawKV, hp]
      simp only [queryPairsAux, hp] at h
      simp only [List.filterMap_cons, hkv]
      exact ih acc h
    | some kvp =>
      obtain ⟨kc, vc⟩ := kvp
      have hkv : rawKV p = Option.some (String.mk kc, String.mk vc) := by
        simp [rawKV, hp]
      simp only [queryPairsAux, hp] at h
      cases hcv : coerceQueryValue (String.mk vc) with
      | none =>
        rw [hcv] at h
        exact Option.noConfusion h
      | some v0 =>
        rw [hcv] at h
        have step := ih (dictInsert (PyVal.pyStr (String.mk kc)) v0 acc) h
        rw [step]
        simp only [List.filterMap_cons, hkv]
        by_cases hk : String.mk kc = k
        · simp only [List.filter_cons, hk]
          simp only [decide_eq_true_eq, if_true]
          cases hF : (rest.filterMap rawKV).filter (fun kv => kv.1 = k) with
          | nil =>
            show dictLookup (PyVal.pyStr k) (dictInsert (PyVal.pyStr k) v0 acc) = _
            rw [dictLookup_dictInsert]
            simp [hcv]
          | cons y ys =>
            rw [List.getLast?_cons_cons]
            exact match_getLast?_cons_irrel y ys
              (dictLookup (PyVal.pyStr k) (dictInsert (PyVal.pyStr k) v0 acc))
              (dictLookup (PyVal.pyStr k) acc)
        · simp only [List.filter_cons, hk]
          simp only [decide_eq_true_eq, if_false]
          cases hF : (rest.filterMap rawKV).filter (fun kv => kv.1 = k) with
          | nil =>
            show dictLookup (PyVal.pyStr k)
              (dictInsert (PyVal.pyStr (String.mk kc)) v0 acc) = _
            rw [dictLookup_dictInsert]
            rw [if_neg hk]
            rfl
          | cons y ys =>
            exact match_getLast?_cons_irrel y ys
              (dictLookup (PyVal.pyStr k) (dictInsert (PyVal.pyStr (String.mk kc)) v0 acc))
              (dictLookup (PyVal.pyStr k) acc)

/-- C2, counterexample: the two-character-value string a=² satisfies the
claim hypotheses — it contains an equals sign, is not valid JSON, and is
not brace-delimited so the literal strategy is skipped — and its value ²
is all-digit in Python (superscript two passes isdigit), yet the coercer
does not produce the described mapping: int() raises on ², the except
clause abandons the query strategy, and the input string comes back
unchanged. -/
theorem C2_counterexample :
    jsonLoads "a=\xb2" = Option.none ∧
    isBracedStripped "a=\xb2" = false ∧
    ("a=\xb2").data.contains '=' = true ∧
    pyIsDigit "\xb2" = true ∧
    str_to_dict_validator (PyVal.pyStr "a=\xb2") = PyVal.pyStr "a=\xb2" ∧
    isPyDict (str_to_dict_validator (PyVal.pyStr "a=\xb2")) = false := by
  refine ⟨rfl, rfl, rfl, rfl, rfl, rfl⟩

/-- C2 (amended): when the string contains an equals sign, the JSON
strategy fails, the literal strategy is skipped (the trimmed string is not
brace-delimited), and every value conversion succeeds, the coercer returns
the query-string dict; looking any key up in it yields the converted value
of the last ampersand-segment whose part before the first equals sign is
that key (keys never converted; values map case-insensitive true and
false to booleans and all-digit decimal strings to integers); a value
that is all-digit without being decimally convertible makes int() raise,
the except clause abandons the strategy, and the input is returned
unchanged; the example of the spec holds. -/
theorem C2_query_string_strategy (s : String) (params : List (PyVal × PyVal))
    (hjson : jsonLoads s = Option.none)
    (hbr : isBracedStripped s = false)
    (heq : s.data.contains '=' = true)
    (hq : queryParse s = Option.some params) :
    str_to_dict_validator (PyVal.pyStr s) = PyVal.pyDict params ∧
    (∀ k : String, dictLookup (PyVal.pyStr k) params =
      match ((eqPairs s).filter (fun kv => kv.1 = k)).getLast? with
      | Option.some kv => coerceQueryValue kv.2
      | Option.none => Option.none) ∧
    (∀ s2 : String, jsonLoads s2 = Option.none → isBracedStripped s2 = false →
      (s2.data.contains '=' = true) → queryParse s2 = Option.none →
      str_to_dict_validator (PyVal.pyStr s2) = PyVal.pyStr s2) ∧
    str_to_dict_validator (PyVal.pyStr "wait=2000&screenshot=true") =
      PyVal.pyDict [(PyVal.pyStr "wait", PyVal.pyInt 2000),
        (PyVal.pyStr "screenshot", PyVal.pyBool true)] := by
  have hne : s ≠ "" := by
    intro he
    subst he
    simp at heq
  refine ⟨?_, ?_, ?_, ?_⟩
  · have hmem : '=' ∈ s.data := by simpa using heq
    simp [str_to_dict_validator, hne, hjson, hbr, hmem, hq]
  · intro k
    have base := dictLookup_queryPairsAux (pySplitChar '&' s.data) [] params k hq
    rw [base]
    rfl
  · intro s2 hjson2 hbr2 heq2 hq2
    have hne2 : s2 ≠ "" := by
      intro he
      subst he
      simp at heq2
    have hmem2 : '=' ∈ s2.data := by simpa using heq2
    simp [str_to_dict_validator, hne2, hjson2, hbr2, hmem2, hq2]
  · rfl

theorem C2_query_string_strategy_witness :
    str_to_dict_validator (PyVal.pyStr "wait=2000&screenshot=true") =
      PyVal.pyDict [(PyVal.pyStr "wait", PyVal.pyInt 2000),
        (PyVal.pyStr "screenshot", PyVal.pyBool true)] :=
  (C2_query_string_strategy "wait=2000&screenshot=true"
    [(PyVal.pyStr "wait", PyVal.pyInt 2000), (PyVal.pyStr "screenshot", PyVal.pyBool true)]
    (by rfl) (by rfl) (by rfl) (by rfl)).2.2.2

/-- C3, counterexample: the string composed of a bracket, one, comma, two
and a closing bracket is well-formed JSON with a non-object top level; the
strict JSON strategy succeeds on it and the coercer returns the parsed
list, which is not a mapping — so the strategy is not restricted to
top-level objects and its success does not guarantee a mapping result. -/
theorem C3_counterexample :
    jsonLoads "[1,2]" = Option.some (PyVal.pyList [PyVal.pyInt 1, PyVal.pyInt 2]) ∧
    str_to_dict_validator (PyVal.pyStr "[1,2]") =
      PyVal.pyList [PyVal.pyInt 1, PyVal.pyInt 2] ∧
    isPyDict (str_to_dict_validator (PyVal.pyStr "[1,2]")) = false := by
  refine ⟨rfl, rfl, rfl⟩

/-- C3 (amended): the strict JSON strategy succeeds on any well-formed
top-level JSON value, object or not, and on success the coercer returns
the parsed value unchanged; in particular a bare number is returned as the
number itself, and a nested array as the nested list, not a mapping. -/
theorem C3_json_strategy_returns_parse (s : String) (j : PyVal)
    (h : jsonLoads s = Option.some j) :
    str_to_dict_validator (PyVal.pyStr s) = j ∧
    str_to_dict_validator (PyVal.pyStr "42") = PyVal.pyInt 42 ∧
    str_to_dict_validator (PyVal.pyStr "[[[1]]]") =
      PyVal.pyList [PyVal.pyList [PyVal.pyList [PyVal.pyInt 1]]] := by
  refine ⟨?_, rfl, rfl⟩
  have hs : s ≠ "" := by
    intro he
    subst he
    rw [show jsonLoads "" = Option.none from rfl] at h
    exact Option.noConfusion h
  simp [str_to_dict_validator, hs, h]

theorem C3_json_strategy_returns_parse_witness :
    str_to_dict_validator (PyVal.pyStr "42") = PyVal.pyInt 42 :=
  (C3_json_strategy_returns_parse "42" (PyVal.pyInt 42) (by rfl)).1

end ScrapingBee
